import Mathlib

set_option maxRecDepth 40000

/-!
A shallow embedding of the `modem` noise wire protocol session code
(`src/messages.rs`, `src/errors.rs`) and proofs about it.

Bytes are modelled as `Nat` values (with `< 256` bounds carried as
hypotheses where they matter), byte buffers as `List Nat`.  Rust slice
expressions `b[i..j]`, which panic when out of bounds, are modelled by
`rustSlice`, which returns `none` exactly when Rust would panic; code
that can panic returns a `RunResult`, whose `fatal` constructor marks a
panic (out-of-bounds slice or failed assertion).

The external `snow` Noise engine is abstracted by oracle parameters:
transport-mode `write_message` / `read_message` become functions
`enc, dec : Nat → List Nat → Option (List Nat)` taking the current
cipher nonce and the input buffer (`none` models an engine error), and
the session's transport cipher state is the pair of nonces
(`TransportState`); each call consumes one nonce, as each Noise
transport message does.  Handshake-mode reads and the builder calls of
`Session::new` are likewise oracle parameters over an opaque state
blob. -/

/-- Outcome of running a Rust function that may return `Ok`, return
`Err`, or panic (`fatal`). -/
inductive RunResult (ε α : Type) where
  | ok : α → RunResult ε α
  | err : ε → RunResult ε α
  | fatal : RunResult ε α
deriving DecidableEq, Repr

/-- `HandshakeError` from `src/errors.rs` (the `SessionCreateError`
variant is referenced by `src/messages.rs` and is included here). -/
inductive HandshakeError where
  | ServerFailedToDecodeRemoteStatic
  | ClientFailedToDecodeRemoteStatic
  | ClientFailedToGetRemoteStatic
  | ClientHandshakeInvalidAuthError
  | InvalidNoiseSpecError
  | NoPeerKeyError
  | MessageFactoryCreateError
  | InvalidStateError
  | ClientHandshakeNoise1Error
  | ClientHandshakeNoise2Error
  | ClientHandshakeNoise3Error
  | ClientHandshakeSend1Error
  | ClientHandshakeSend2Error
  | ClientHandshakeReceiveError
  | ClientAuthenticationError
  | ServerHandshakeReceive1Error
  | ServerHandshakeReceive2Error
  | ServerHandshakeSendError
  | ServerHandshakeNoise1Error
  | ServerHandshakeNoise2Error
  | ServerHandshakeNoise3Error
  | ServerPrologueMismatchError
  | ServerAuthenticationError
  | DataTransferFail
  | SessionCreateError
deriving DecidableEq, Repr

/-- `SendMessageError` from `src/errors.rs`. -/
inductive SendMessageError where
  | InvalidMessageSize
  | EncryptFail
deriving DecidableEq, Repr

/-- `ReceiveMessageError` from `src/errors.rs`. -/
inductive ReceiveMessageError where
  | InvalidMessageSize
  | DecryptFail
deriving DecidableEq, Repr

/-- Constant `PROLOGUE` from `src/messages.rs`. -/
def PROLOGUE : List Nat := [0]

/-- Constant `PROLOGUE_SIZE` from `src/messages.rs`. -/
def PROLOGUE_SIZE : Nat := 1

/-- Constant `NOISE_MESSAGE_MAX_SIZE` from `src/messages.rs`. -/
def NOISE_MESSAGE_MAX_SIZE : Nat := 65535

/-- Constant `KEY_SIZE` from `src/messages.rs`. -/
def KEY_SIZE : Nat := 32

/-- Constant `MAC_SIZE` from `src/messages.rs`. -/
def MAC_SIZE : Nat := 16

/-- Constant `MAX_ADDITIONAL_DATA_SIZE` from `src/messages.rs`. -/
def MAX_ADDITIONAL_DATA_SIZE : Nat := 255

/-- Constant `AUTH_MESSAGE_SIZE` from `src/messages.rs` (260). -/
def AUTH_MESSAGE_SIZE : Nat := 1 + 4 + MAX_ADDITIONAL_DATA_SIZE

/-- Constant `NOISE_HANDSHAKE_MESSAGE1_SIZE` from `src/messages.rs` (33). -/
def NOISE_HANDSHAKE_MESSAGE1_SIZE : Nat := PROLOGUE_SIZE + KEY_SIZE

/-- Constant `NOISE_MESSAGE_HEADER_SIZE` from `src/messages.rs` (20). -/
def NOISE_MESSAGE_HEADER_SIZE : Nat := MAC_SIZE + 4

/-- `byteorder::BigEndian::write_u32`: the four big-endian bytes of a
32-bit value. -/
def beWrite32 (n : Nat) : List Nat :=
  [n / 16777216 % 256, n / 65536 % 256, n / 256 % 256, n % 256]

/-- `byteorder::BigEndian::read_u32`: big-endian 32-bit value of the
first four bytes of a buffer. -/
def beRead32 (b : List Nat) : Nat :=
  b.getD 0 0 * 16777216 + b.getD 1 0 * 65536 + b.getD 2 0 * 256 + b.getD 3 0

/-- Rust slice `b[i..j]`: `none` exactly when Rust panics. -/
def rustSlice (b : List Nat) (i j : Nat) : Option (List Nat) :=
  if i ≤ j ∧ j ≤ b.length then some ((b.drop i).take (j - i)) else none

/-- `AuthenticateMessage` from `src/messages.rs`. -/
structure AuthenticateMessage where
  additional_data : List Nat
  unix_time : Nat
deriving DecidableEq, Repr

/-- `AuthenticateMessage::to_vec` from `src/messages.rs`: length byte,
the additional data, then the four big-endian timestamp bytes.  (The
source writes no padding bytes.) -/
def AuthenticateMessage.to_vec (m : AuthenticateMessage) : Except String (List Nat) :=
  if m.additional_data.length > MAX_ADDITIONAL_DATA_SIZE then
    .error "additional data exceeds maximum allowed size"
  else
    .ok ([m.additional_data.length] ++ m.additional_data ++ beWrite32 m.unix_time)

/-- `authenticate_message_from_bytes` from `src/messages.rs`:
checks the buffer is exactly `AUTH_MESSAGE_SIZE = 260` bytes, takes
`ad = b[1..1+b[0]]` and the timestamp from `b[256..]`. -/
def authenticate_message_from_bytes (b : List Nat) :
    RunResult String AuthenticateMessage :=
  if b.length ≠ AUTH_MESSAGE_SIZE then
    .err "authenticate message is not the valid size"
  else
    match rustSlice b 1 (1 + b.getD 0 0) with
    | none => .fatal
    | some ad =>
      match rustSlice b (1 + MAX_ADDITIONAL_DATA_SIZE) b.length with
      | none => .fatal
      | some ts =>
        if ts.length < 4 then .fatal
        else .ok { additional_data := ad, unix_time := beRead32 ts }

/-- `PeerCredentials` from `src/messages.rs`. -/
structure PeerCredentials where
  additional_data : List Nat
  public_key : List Nat

/-- `SessionConfig` from `src/messages.rs`; the boxed
`PeerAuthenticator` is its single method `is_peer_valid`. -/
structure SessionConfig where
  authenticator : PeerCredentials → Bool
  authentication_key : List Nat
  peer_public_key : Option (List Nat)
  additional_data : List Nat

/-- `Session` from `src/messages.rs`; the `snow::Session` noise state
is an opaque blob.  (The source struct carries no phase field.) -/
structure Session where
  initiator : Bool
  session : List Nat
  additional_data : List Nat
  authenticator : PeerCredentials → Bool
  authentication_key : List Nat

/-- `Session::new` from `src/messages.rs`.  The snow builder calls are
the oracles `build_initiator` (taking the local private key and the
peer public key) and `build_responder` (taking the local private key);
`none` models a builder error.  An initiator without a configured peer
public key is rejected before any builder call. -/
def Session.new (build_initiator : List Nat → List Nat → Option (List Nat))
    (build_responder : List Nat → Option (List Nat))
    (session_config : SessionConfig) (is_initiator : Bool) :
    Except HandshakeError Session :=
  if is_initiator then
    match session_config.peer_public_key with
    | none => .error .NoPeerKeyError
    | some pk =>
      match build_initiator session_config.authentication_key pk with
      | none => .error .SessionCreateError
      | some s =>
        .ok { initiator := is_initiator, session := s,
              additional_data := session_config.additional_data,
              authenticator := session_config.authenticator,
              authentication_key := session_config.authentication_key }
  else
    match build_responder session_config.authentication_key with
    | none => .error .SessionCreateError
    | some s =>
      .ok { initiator := is_initiator, session := s,
            additional_data := session_config.additional_data,
            authenticator := session_config.authenticator,
            authentication_key := session_config.authentication_key }

/-- `Session::server_read_handshake1` from `src/messages.rs`: first the
constant-time prologue comparison of the last message byte against
`PROLOGUE = [0]` (mismatch returns `ServerPrologueMismatchError` with
the noise state untouched), then the noise `read_message` (oracle
`read`, returning the new state blob and the decrypted payload), then
`assert_eq!(PROLOGUE_SIZE, _len)` modelled as `fatal`. -/
def server_read_handshake1 (read : List Nat → List Nat → Option (List Nat × List Nat))
    (noise : List Nat) (message : List Nat) :
    RunResult HandshakeError Unit × List Nat :=
  if message.getD (NOISE_HANDSHAKE_MESSAGE1_SIZE - 1) 0 ≠ 0 then
    (.err .ServerPrologueMismatchError, noise)
  else
    match read noise message with
    | none => (.err .ServerHandshakeNoise1Error, noise)
    | some (noiseNext, payload) =>
      if payload.length ≠ PROLOGUE_SIZE then (.fatal, noiseNext)
      else (.ok (), noiseNext)

/-- `Session::data_transfer` from `src/messages.rs`: asks the engine to
move the state into transport mode (oracle `into_transport`); failure
is `DataTransferFail`. -/
def data_transfer (into_transport : List Nat → Option (List Nat))
    (s : Session) : Except HandshakeError Session :=
  match into_transport s.session with
  | none => .error .DataTransferFail
  | some t => .ok { s with session := t }

/-- Transport-mode cipher state of a session: the send and receive
nonces of the underlying noise transport state. -/
structure TransportState where
  sendNonce : Nat
  recvNonce : Nat
deriving DecidableEq, Repr

/-- `Session::encrypt_message` from `src/messages.rs`: checks
`ct_len = MAC_SIZE + message.len()` against `NOISE_MESSAGE_MAX_SIZE`
before any engine call, then encrypts the 4-byte big-endian header and
the payload as two transport messages and concatenates the two
ciphertexts. -/
def encrypt_message (enc : Nat → List Nat → Option (List Nat))
    (st : TransportState) (message : List Nat) :
    RunResult SendMessageError (List Nat) × TransportState :=
  if MAC_SIZE + message.length > NOISE_MESSAGE_MAX_SIZE then
    (.err .InvalidMessageSize, st)
  else
    match enc st.sendNonce (beWrite32 (MAC_SIZE + message.length)) with
    | none => (.err .EncryptFail, { st with sendNonce := st.sendNonce + 1 })
    | some ciphertext_header =>
      match enc (st.sendNonce + 1) message with
      | none => (.err .EncryptFail, { st with sendNonce := st.sendNonce + 2 })
      | some ciphertext =>
        (.ok (ciphertext_header ++ ciphertext),
          { st with sendNonce := st.sendNonce + 2 })

/-- `Session::decrypt_message_header` from `src/messages.rs`: slices
`message[..NOISE_MESSAGE_HEADER_SIZE]` with no length validation (an
out-of-bounds slice is a panic, `fatal`), decrypts it, asserts the
plaintext length is 4 and returns its big-endian value. -/
def decrypt_message_header (dec : Nat → List Nat → Option (List Nat))
    (st : TransportState) (message : List Nat) :
    RunResult ReceiveMessageError Nat × TransportState :=
  match rustSlice message 0 NOISE_MESSAGE_HEADER_SIZE with
  | none => (.fatal, st)
  | some hdr =>
    match dec st.recvNonce hdr with
    | none => (.err .DecryptFail, { st with recvNonce := st.recvNonce + 1 })
    | some pt =>
      if pt.length ≠ 4 then (.fatal, { st with recvNonce := st.recvNonce + 1 })
      else (.ok (beRead32 pt), { st with recvNonce := st.recvNonce + 1 })

/-- `Session::decrypt_message` from `src/messages.rs`: decrypts the
payload ciphertext and returns the plaintext. -/
def decrypt_message (dec : Nat → List Nat → Option (List Nat))
    (st : TransportState) (message : List Nat) :
    RunResult ReceiveMessageError (List Nat) × TransportState :=
  match dec st.recvNonce message with
  | none => (.err .DecryptFail, { st with recvNonce := st.recvNonce + 1 })
  | some pt => (.ok pt, { st with recvNonce := st.recvNonce + 1 })

theorem beWrite32_length (n : Nat) : (beWrite32 n).length = 4 := by
  simp [beWrite32]

theorem beRead32_beWrite32 (n : Nat) (h : n < 4294967296) :
    beRead32 (beWrite32 n) = n := by
  simp only [beWrite32, beRead32, List.getD_cons_zero, List.getD_cons_succ]
  omega

theorem auth_parse_ok (b : List Nat) (hlen : b.length = AUTH_MESSAGE_SIZE)
    (hbytes : ∀ x ∈ b, x < 256) :
    authenticate_message_from_bytes b =
      RunResult.ok ⟨(b.drop 1).take (b.getD 0 0), beRead32 ((b.drop 256).take 4)⟩ := by
  have hlen' : b.length = 260 := by
    rw [hlen]; decide
  have hb0 : b.getD 0 0 < 256 := by
    cases b with
    | nil => simp at hlen'
    | cons x xs => exact hbytes x (List.mem_cons_self x xs)
  have h1 : rustSlice b 1 (1 + b.getD 0 0) =
      some ((b.drop 1).take (b.getD 0 0)) := by
    unfold rustSlice
    rw [if_pos ⟨Nat.le_add_right 1 _, by omega⟩]
    simp
  have h2 : rustSlice b (1 + MAX_ADDITIONAL_DATA_SIZE) b.length =
      some ((b.drop 256).take 4) := by
    unfold rustSlice MAX_ADDITIONAL_DATA_SIZE
    rw [if_pos ⟨by omega, Nat.le_refl _⟩]
    have hnum : (1 : Nat) + 255 = 256 := by decide
    rw [hnum]
    have hsub : b.length - 256 = 4 := by omega
    rw [hsub]
  have hts : ((b.drop 256).take 4).length = 4 := by
    simp [hlen']
  simp only [authenticate_message_from_bytes,
    if_neg (show ¬ b.length ≠ AUTH_MESSAGE_SIZE by simp [hlen]), h1, h2,
    if_neg (show ¬ ((b.drop 256).take 4).length < 4 by omega)]

/-- Claim C4: `authenticate_message_from_bytes` fails with the
invalid-auth-payload error exactly when the input length is not 260,
and on every 260-byte buffer returns `ad = buf[1..1+buf[0]]` and the
big-endian 32-bit value of `buf[256..260]`. -/
theorem C4_parse_characterization (b : List Nat) (hbytes : ∀ x ∈ b, x < 256) :
    (b.length ≠ AUTH_MESSAGE_SIZE →
        authenticate_message_from_bytes b =
          .err "authenticate message is not the valid size") ∧
    (b.length = AUTH_MESSAGE_SIZE →
        authenticate_message_from_bytes b =
          RunResult.ok ⟨(b.drop 1).take (b.getD 0 0), beRead32 ((b.drop 256).take 4)⟩) := by
  constructor
  · intro h
    simp [authenticate_message_from_bytes, h]
  · intro hlen
    exact auth_parse_ok b hlen hbytes

/-- Witness for C4 at the all-zero 260-byte buffer. -/
theorem C4_parse_characterization_witness :
    authenticate_message_from_bytes (List.replicate 260 0) =
      RunResult.ok ⟨[], 0⟩ := by
  have h := (C4_parse_characterization (List.replicate 260 0)
      (by intro x hx; have hx0 := List.eq_of_mem_replicate hx; omega)).2 (by decide)
  exact h.trans (by decide)

/-- Claim C9: `authenticate_message_from_bytes` is total on 260-byte
byte buffers: whatever the first (length) byte is, the internal slices
are in bounds and the function returns `Ok` (so the call-site
`.unwrap()` in `client_read_handshake1` / `server_read_handshake2`,
which always pass a 260-byte buffer, cannot panic). -/
theorem C9_parse_total (b : List Nat) (hlen : b.length = AUTH_MESSAGE_SIZE)
    (hbytes : ∀ x ∈ b, x < 256) :
    ∃ m, authenticate_message_from_bytes b = RunResult.ok m :=
  ⟨_, auth_parse_ok b hlen hbytes⟩

/-- Witness for C9 at the all-ones 260-byte buffer. -/
theorem C9_parse_total_witness :
    ∃ m, authenticate_message_from_bytes (List.replicate 260 1) = RunResult.ok m :=
  C9_parse_total (List.replicate 260 1) (by decide)
    (by intro x hx; have hx1 := List.eq_of_mem_replicate hx; omega)

/-- Claim C2 (code bug): serialize/parse do not round-trip.  At the
failing input `ad = [], t = 0`, `to_vec` produces the 5-byte vector
`[0,0,0,0,0]` (no padding to 260 bytes), which
`authenticate_message_from_bytes` rejects as the wrong size. -/
theorem C2_roundtrip_fails :
    AuthenticateMessage.to_vec ⟨[], 0⟩ = Except.ok [0, 0, 0, 0, 0] ∧
    authenticate_message_from_bytes [0, 0, 0, 0, 0] =
      RunResult.err "authenticate message is not the valid size" := by
  constructor
  · rfl
  · rfl

/-- Claim C3 (code bug): `to_vec` emits no zero padding.  At
`ad = [7], t = 1` the output is the 6-byte vector `[1,7,0,0,0,1]`
(length byte, the ad byte, then the big-endian timestamp immediately
after, with no 254 padding bytes and total size 6, not 260). -/
theorem C3_serialize_no_padding :
    AuthenticateMessage.to_vec ⟨[7], 1⟩ = Except.ok [1, 7, 0, 0, 0, 1] ∧
    ([1, 7, 0, 0, 0, 1] : List Nat).length = 6 := by
  constructor
  · rfl
  · rfl

/-- Claim C5: on a 33-byte HS1 message, `server_read_handshake1` fails
with `ServerPrologueMismatchError` exactly when the last byte is not
`0x00`, and in the mismatch case it returns with the noise state
untouched, before the `read` oracle is consulted. -/
theorem C5_prologue_check (read : List Nat → List Nat → Option (List Nat × List Nat))
    (noise : List Nat) (msg : List Nat)
    (hlen : msg.length = NOISE_HANDSHAKE_MESSAGE1_SIZE) :
    ((server_read_handshake1 read noise msg).1 =
        RunResult.err HandshakeError.ServerPrologueMismatchError ↔
      msg.getD (NOISE_HANDSHAKE_MESSAGE1_SIZE - 1) 0 ≠ 0) ∧
    (msg.getD (NOISE_HANDSHAKE_MESSAGE1_SIZE - 1) 0 ≠ 0 →
      server_read_handshake1 read noise msg =
        (RunResult.err HandshakeError.ServerPrologueMismatchError, noise)) := by
  by_cases hb : msg.getD (NOISE_HANDSHAKE_MESSAGE1_SIZE - 1) 0 ≠ 0
  · refine ⟨⟨fun _ => hb, fun _ => ?_⟩, fun _ => ?_⟩ <;>
      · unfold server_read_handshake1
        rw [if_pos hb]
  · refine ⟨⟨fun h => ?_, fun h => absurd h hb⟩, fun h => absurd h hb⟩
    exfalso
    unfold server_read_handshake1 at h
    rw [if_neg hb] at h
    split at h
    · simp at h
    · split at h
      · simp at h
      · simp at h

/-- Witness for C5: a 33-byte message whose last byte is 1. -/
theorem C5_prologue_check_witness :
    server_read_handshake1 (fun _ _ => none) [] (List.replicate 32 0 ++ [1]) =
      (RunResult.err HandshakeError.ServerPrologueMismatchError, []) :=
  (C5_prologue_check (fun _ _ => none) [] (List.replicate 32 0 ++ [1])
    (by decide)).2 (by decide)

/-- Claim C8: `Session::new` fails with `NoPeerKeyError` exactly when
constructing an initiator with no configured peer public key; a
responder is never rejected for a missing peer key. -/
theorem C8_no_peer_key (bi : List Nat → List Nat → Option (List Nat))
    (br : List Nat → Option (List Nat)) (cfg : SessionConfig) (b : Bool) :
    Session.new bi br cfg b = Except.error HandshakeError.NoPeerKeyError ↔
      b = true ∧ cfg.peer_public_key = none := by
  cases b with
  | false =>
    simp only [Session.new, Bool.false_eq_true, if_false]
    cases hbr : br cfg.authentication_key with
    | none => simp
    | some s => simp
  | true =>
    simp only [Session.new, if_true]
    cases hpk : cfg.peer_public_key with
    | none => simp
    | some pk =>
      cases hbi : bi cfg.authentication_key pk with
      | none => simp [hbi]
      | some s => simp [hbi]

/-- Witness for C8: an initiator configured without a peer key. -/
theorem C8_no_peer_key_witness :
    Session.new (fun _ _ => none) (fun _ => none)
      (SessionConfig.mk (fun _ => true) [] none []) true =
      Except.error HandshakeError.NoPeerKeyError :=
  (C8_no_peer_key (fun _ _ => none) (fun _ => none)
    (SessionConfig.mk (fun _ => true) [] none []) true).mpr ⟨rfl, rfl⟩

/-- Claim C6: `encrypt_message` fails with `InvalidMessageSize` exactly
when `MAC_SIZE + message.len() > 65535` (payload longer than 65519),
and on that path it returns with the transport state unchanged, before
the `enc` oracle is consulted. -/
theorem C6_invalid_message_size (enc : Nat → List Nat → Option (List Nat))
    (st : TransportState) (m : List Nat) :
    ((encrypt_message enc st m).1 = RunResult.err SendMessageError.InvalidMessageSize ↔
        MAC_SIZE + m.length > NOISE_MESSAGE_MAX_SIZE) ∧
    (MAC_SIZE + m.length > NOISE_MESSAGE_MAX_SIZE →
        encrypt_message enc st m = (RunResult.err SendMessageError.InvalidMessageSize, st)) := by
  by_cases hgt : MAC_SIZE + m.length > NOISE_MESSAGE_MAX_SIZE
  · refine ⟨⟨fun _ => hgt, fun _ => ?_⟩, fun _ => ?_⟩ <;>
      simp [encrypt_message, hgt]
  · refine ⟨⟨fun h => ?_, fun h => absurd h hgt⟩, fun h => absurd h hgt⟩
    exfalso
    simp only [encrypt_message, if_neg hgt] at h
    cases h1 : enc st.sendNonce (beWrite32 (MAC_SIZE + m.length)) with
    | none => rw [h1] at h; simp at h
    | some hdrCt =>
      rw [h1] at h
      cases h2 : enc (st.sendNonce + 1) m with
      | none => rw [h2] at h; simp at h
      | some ct => rw [h2] at h; simp at h

/-- Witness for C6: a 65520-byte payload is rejected with the state
unchanged. -/
theorem C6_invalid_message_size_witness :
    encrypt_message (fun _ pt => some pt) (TransportState.mk 0 0)
        (List.replicate 65520 0) =
      (RunResult.err SendMessageError.InvalidMessageSize, TransportState.mk 0 0) :=
  (C6_invalid_message_size (fun _ pt => some pt) (TransportState.mk 0 0)
    (List.replicate 65520 0)).2
    (by rw [List.length_replicate]; decide)

/-- Claim C10: `decrypt_message_header` does not validate its input
length: any input shorter than 20 bytes makes the slice
`message[..20]` panic (`fatal`) rather than return an error, and no
input ever produces the `InvalidMessageSize` error variant. -/
theorem C10_header_oob (dec : Nat → List Nat → Option (List Nat))
    (st : TransportState) (msg : List Nat) :
    (msg.length < NOISE_MESSAGE_HEADER_SIZE →
        decrypt_message_header dec st msg = (RunResult.fatal, st)) ∧
    (∀ e, (decrypt_message_header dec st msg).1 = RunResult.err e →
        e = ReceiveMessageError.DecryptFail) := by
  constructor
  · intro h
    have hs : rustSlice msg 0 NOISE_MESSAGE_HEADER_SIZE = none := by
      unfold rustSlice
      rw [if_neg]
      omega
    simp [decrypt_message_header, hs]
  · intro e he
    unfold decrypt_message_header at he
    split at he
    · simp at he
    · split at he
      · simp at he
        exact he.symm
      · split at he
        · simp at he
        · simp at he

/-- Witness for C10: a 3-byte input panics. -/
theorem C10_header_oob_witness :
    decrypt_message_header (fun _ _ => none) (TransportState.mk 0 0) [1, 2, 3] =
      (RunResult.fatal, TransportState.mk 0 0) :=
  (C10_header_oob (fun _ _ => none) (TransportState.mk 0 0) [1, 2, 3]).1 (by decide)

/-- Counterexample to claim C7 as stated: a session operation returns
an error (`DecryptFail` at receive nonce 0), yet the very next call on
the same session succeeds with `Ok` instead of failing with
`InvalidState` — errors are not terminal in this code. -/
theorem C7_error_not_terminal_counterexample :
    (decrypt_message (fun n ct => if n = 0 then none else some ct)
        (TransportState.mk 0 0) [5]).1 =
      RunResult.err ReceiveMessageError.DecryptFail ∧
    (decrypt_message (fun n ct => if n = 0 then none else some ct)
        (decrypt_message (fun n ct => if n = 0 then none else some ct)
          (TransportState.mk 0 0) [5]).2 [7]).1 = RunResult.ok [7] := by
  constructor
  · rfl
  · rfl

/-- Claim C7 as amended: the source tracks no session phase (the
`SessionState` enum and the `InvalidStateError` variant are declared
but never used), so an error is not terminal — after a failed
`decrypt_message` only the receive nonce has advanced and a subsequent
call whose decryption succeeds returns `Ok` — and no session operation
ever fails with `InvalidStateError`. -/
theorem C7_no_invalid_state :
    (∀ (dec dec2 : Nat → List Nat → Option (List Nat))
        (st : TransportState) (m m2 : List Nat),
      (decrypt_message dec st m).1 = RunResult.err ReceiveMessageError.DecryptFail →
      dec2 (st.recvNonce + 1) m2 = some m2 →
      (decrypt_message dec2 (decrypt_message dec st m).2 m2).1 = RunResult.ok m2) ∧
    (∀ read noise msg, (server_read_handshake1 read noise msg).1 ≠
        RunResult.err HandshakeError.InvalidStateError) ∧
    (∀ bi br cfg b, Session.new bi br cfg b ≠
        Except.error HandshakeError.InvalidStateError) := by
  refine ⟨?_, ?_, ?_⟩
  · intro dec dec2 st m m2 herr hdec
    have hst : (decrypt_message dec st m).2 = { st with recvNonce := st.recvNonce + 1 } := by
      unfold decrypt_message
      cases hd : dec st.recvNonce m <;> rfl
    rw [hst]
    unfold decrypt_message
    simp only [hdec]
  · intro read noise msg h
    unfold server_read_handshake1 at h
    by_cases hb : msg.getD (NOISE_HANDSHAKE_MESSAGE1_SIZE - 1) 0 ≠ 0
    · rw [if_pos hb] at h
      simp at h
    · rw [if_neg hb] at h
      split at h
      · simp at h
      · split at h
        · simp at h
        · simp at h
  · intro bi br cfg b h
    unfold Session.new at h
    cases b with
    | false =>
      rw [if_neg (by simp)] at h
      split at h
      · simp at h
      · simp at h
    | true =>
      rw [if_pos rfl] at h
      split at h
      · simp at h
      · split at h
        · simp at h
        · simp at h

/-- Witness for the amended C7: after a failed decrypt at nonce 0, a
decrypt whose decryption succeeds returns `Ok`. -/
theorem C7_no_invalid_state_witness :
    (decrypt_message (fun _ ct => some ct)
        (decrypt_message (fun _ _ => none) (TransportState.mk 0 0) [5]).2 [7]).1 =
      RunResult.ok [7] :=
  C7_no_invalid_state.1 (fun _ _ => none) (fun _ ct => some ct)
    (TransportState.mk 0 0) [5] [7] (by rfl) (by rfl)

/-- Claim C1: with the Noise transport abstracted as a paired AEAD —
`dec` inverts `enc` at equal nonces and every ciphertext is plaintext
length plus `MAC_SIZE` — a completed XX handshake with a permissive
authenticator followed by `data_transfer` on both sides is modelled by
the two peers holding synchronized cipher states (the sender's send
nonce equals the receiver's receive nonce).  Then for any payload `m`
with `m.length + MAC_SIZE ≤ 65535`, `encrypt_message` yields a frame
`F`, the peer's `decrypt_message_header` on `F[0..20]` returns
`L = MAC_SIZE + m.length`, and its `decrypt_message` on `F[20..20+L]`
returns exactly `m`. -/
theorem C1_transport_roundtrip (enc dec : Nat → List Nat → Option (List Nat))
    (hgood : ∀ n pt, pt.length ≤ NOISE_MESSAGE_MAX_SIZE →
      ∃ ct, enc n pt = some ct ∧ ct.length = pt.length + MAC_SIZE ∧ dec n ct = some pt)
    (stA stB : TransportState) (hsync : stA.sendNonce = stB.recvNonce)
    (m : List Nat) (hm : m.length + MAC_SIZE ≤ 65535) :
    ∃ F,
      (encrypt_message enc stA m).1 = RunResult.ok F ∧
      decrypt_message_header dec stB (F.take NOISE_MESSAGE_HEADER_SIZE) =
        (RunResult.ok (MAC_SIZE + m.length),
          TransportState.mk stB.sendNonce (stB.recvNonce + 1)) ∧
      (decrypt_message dec (TransportState.mk stB.sendNonce (stB.recvNonce + 1))
          ((F.drop NOISE_MESSAGE_HEADER_SIZE).take (MAC_SIZE + m.length))).1 =
        RunResult.ok m := by
  have hmac : MAC_SIZE = 16 := rfl
  have hmax : NOISE_MESSAGE_MAX_SIZE = 65535 := rfl
  obtain ⟨hdrCt, he1, hl1, hd1⟩ :=
    hgood stA.sendNonce (beWrite32 (MAC_SIZE + m.length))
      (by rw [beWrite32_length]; decide)
  obtain ⟨payloadCt, he2, hl2, hd2⟩ := hgood (stA.sendNonce + 1) m (by omega)
  have hnotgt : ¬ MAC_SIZE + m.length > NOISE_MESSAGE_MAX_SIZE := by omega
  have hhdrlen : hdrCt.length = NOISE_MESSAGE_HEADER_SIZE := by
    rw [hl1, beWrite32_length]; decide
  refine ⟨hdrCt ++ payloadCt, ?_, ?_, ?_⟩
  · simp only [encrypt_message, if_neg hnotgt, he1, he2]
  · have htake : (hdrCt ++ payloadCt).take NOISE_MESSAGE_HEADER_SIZE = hdrCt :=
      List.take_left' hhdrlen
    have hslice : rustSlice hdrCt 0 NOISE_MESSAGE_HEADER_SIZE = some hdrCt := by
      unfold rustSlice
      rw [if_pos (by constructor <;> omega)]
      rw [List.drop_zero, Nat.sub_zero,
        List.take_of_length_le (le_of_eq hhdrlen)]
    have hdecB : dec stB.recvNonce hdrCt = some (beWrite32 (MAC_SIZE + m.length)) := by
      rw [← hsync]; exact hd1
    have hread : beRead32 (beWrite32 (MAC_SIZE + m.length)) = MAC_SIZE + m.length :=
      beRead32_beWrite32 _ (by omega)
    simp [decrypt_message_header, htake, hslice, hdecB, beWrite32_length, hread]
  · have hdrop : (hdrCt ++ payloadCt).drop NOISE_MESSAGE_HEADER_SIZE = payloadCt :=
      List.drop_left' hhdrlen
    have htake2 : payloadCt.take (MAC_SIZE + m.length) = payloadCt :=
      List.take_of_length_le (by omega)
    have hdecB2 : dec (stB.recvNonce + 1) payloadCt = some m := by
      rw [← hsync]; exact hd2
    simp [decrypt_message, hdrop, htake2, hdecB2]

/-- Witness for C1: the trivial paired cipher appending sixteen zero
tag bytes, payload `[1, 2, 3]`, both nonces 0; the decrypted header is
`19 = 16 + 3`. -/
theorem C1_transport_roundtrip_witness :
    ∃ F,
      (encrypt_message (fun _ pt => some (pt ++ List.replicate MAC_SIZE 0))
          (TransportState.mk 0 0) [1, 2, 3]).1 = RunResult.ok F ∧
      decrypt_message_header (fun _ ct => some (ct.take (ct.length - MAC_SIZE)))
          (TransportState.mk 0 0) (F.take NOISE_MESSAGE_HEADER_SIZE) =
        (RunResult.ok 19, TransportState.mk 0 1) ∧
      (decrypt_message (fun _ ct => some (ct.take (ct.length - MAC_SIZE)))
          (TransportState.mk 0 1)
          ((F.drop NOISE_MESSAGE_HEADER_SIZE).take 19)).1 =
        RunResult.ok [1, 2, 3] :=
  C1_transport_roundtrip
    (fun _ pt => some (pt ++ List.replicate MAC_SIZE 0))
    (fun _ ct => some (ct.take (ct.length - MAC_SIZE)))
    (by
      intro n pt h
      refine ⟨pt ++ List.replicate MAC_SIZE 0, rfl, by simp, ?_⟩
      show some ((pt ++ List.replicate MAC_SIZE 0).take
          ((pt ++ List.replicate MAC_SIZE 0).length - MAC_SIZE)) = some pt
      rw [List.length_append, List.length_replicate, Nat.add_sub_cancel,
        List.take_left])
    (TransportState.mk 0 0) (TransportState.mk 0 0) rfl [1, 2, 3] (by decide)
